import Mathlib

/-!
Shallow embedding of the llm-pipeline repository (src/pipeline.py and
src/src/model.py) and verification of its specification claims.

The repository wires dataset formatting, prompt templating and a
completion-only loss mask into an external trainer loop, and declares a
four-stage kfp pipeline.  External ML-library behaviour (tokenizers,
models, the pandas/parquet reader, the kfp compiler) is modelled by
abstract function parameters or by its documented contract; everything
the repository itself computes is transcribed from the source.
-/

namespace LlmPipeline

/-! ## Prompt keys and templates (src/src/model.py, lines 29-112)

The Python source builds the two prompt templates with triple-quoted
strings whose continuation lines carry four spaces of indentation, so
each component is separated by a newline followed by four spaces. -/

def INSTRUCTION_KEY : String := "### Instruction:"

def INPUT_KEY : String := "Input:"

def RESPONSE_KEY : String := "### Response:"

def END_KEY : String := "### End"

def RESPONSE_KEY_NL : String := RESPONSE_KEY ++ "\n"

def INTRO_BLURB : String :=
  "Below is an instruction that describes a task. Write a response that appropriately completes the request."

/-- The separator the triple-quoted template places between components:
a newline plus the four spaces of source indentation. -/
def NL4 : String := "\n    "

/-- `PROMPT_NO_INPUT_FORMAT` after both `.format` passes: intro,
instruction key, instruction, response key, response, end key, in order
(src/src/model.py lines 81-93). -/
def PROMPT_NO_INPUT_FORMAT (instruction response : String) : String :=
  INTRO_BLURB ++ NL4 ++ INSTRUCTION_KEY ++ NL4 ++ instruction ++ NL4 ++
    RESPONSE_KEY ++ NL4 ++ response ++ NL4 ++ END_KEY

/-- `PROMPT_WITH_INPUT_FORMAT` after both `.format` passes: identical to
the no-input template except that the input key and the context are
inserted between the instruction and the response key
(src/src/model.py lines 96-112). -/
def PROMPT_WITH_INPUT_FORMAT (instruction input response : String) : String :=
  INTRO_BLURB ++ NL4 ++ INSTRUCTION_KEY ++ NL4 ++ instruction ++ NL4 ++
    INPUT_KEY ++ NL4 ++ input ++ NL4 ++
    RESPONSE_KEY ++ NL4 ++ response ++ NL4 ++ END_KEY

/-! ## Training records and `_add_text` (src/src/model.py, lines 114-136) -/

/-- One record of the training dataset.  `context` is `none` when the
field is absent (Python `rec.get("context")` returns `None`); `text` is
`none` until `_add_text` sets it. -/
structure TrainRecord where
  instruction : String
  context : Option String
  response : String
  text : Option String
deriving DecidableEq, Repr

/-- Python truthiness of `rec.get("context")`: `None` and the empty
string are falsy, every non-empty string is truthy. -/
def contextTruthy : Option String → Bool
  | none => false
  | some s => !s.isEmpty

/-- `_add_text` (src/src/model.py lines 118-133): set `rec["text"]` to the
with-input prompt when the context is truthy, the no-input prompt
otherwise. -/
def add_text (rec : TrainRecord) : TrainRecord :=
  if contextTruthy rec.context then
    { rec with
      text := some (PROMPT_WITH_INPUT_FORMAT rec.instruction
        (rec.context.getD "") rec.response) }
  else
    { rec with
      text := some (PROMPT_NO_INPUT_FORMAT rec.instruction rec.response) }

/-- `load_training_dataset` (src/src/model.py lines 115-136): the external
`load_dataset` call yields the records written to `./train_data/`; the
repository's own contribution is `dataset.map(_add_text)`. -/
def load_training_dataset (records : List TrainRecord) : List TrainRecord :=
  records.map add_text

/-! ## The completion-only data collator (src/src/model.py, lines 168-198)

`DataCollatorForCompletionOnlyLM.torch_call` first obtains the parent
batch from `DataCollatorForLanguageModeling.torch_call` (a dict with
`input_ids`, `attention_mask` and `labels`), then rewrites only the
`labels` entry.  `RESPONSE_KEY_NL` is registered as an additional
special token by `load_tokenizer`, so `self.tokenizer.encode`
turns it into the single-element id list `[respId]`; the loop looks for
the first occurrence of element 0 of that list. -/

/-- A parent-collator batch: per-example token-id rows. -/
structure Batch where
  input_ids : List (List Int)
  attention_mask : List (List Int)
  labels : List (List Int)
deriving DecidableEq, Repr

/-- `self.tokenizer.encode(RESPONSE_KEY_NL)`: the response key with
newline is an additional special token, hence a single id. -/
def encode_response_key (respId : Int) : List Int := [respId]

/-- `np.where(batch["labels"][i] == response_token_ids[0])[0]` followed by
taking the first element: index of the first occurrence, if any. -/
def find_response_start (respId : Int) : List Int → Option Nat
  | [] => none
  | x :: xs =>
    if x == respId then some 0
    else (find_response_start respId xs).map (fun n => n + 1)

/-- `labels[i, :endIdx] = -100`: overwrite the positions before `endIdx`
with the loss-ignore value, keep the rest. -/
def mask_labels (endIdx : Nat) (lbls : List Int) : List Int :=
  lbls.mapIdx (fun j x => if j < endIdx then -100 else x)

/-- The per-example body of the `torch_call` loop: fail like the
`RuntimeError` when the response-key token is absent, otherwise mask up
to (excluding) `start + 1`. -/
def mask_example (respId : Int) (lbls : List Int) : Except String (List Int) :=
  match find_response_start respId lbls with
  | none => Except.error "Could not find response key in token IDs"
  | some s => Except.ok (mask_labels (s + 1) lbls)

/-- Effectful map over a list that stops at the first raised error, the
way the Python `for` loop propagates the `RuntimeError`. -/
def exceptMap (f : α → Except ε β) : List α → Except ε (List β)
  | [] => Except.ok []
  | a :: as =>
    match f a with
    | Except.error e => Except.error e
    | Except.ok b =>
      match exceptMap f as with
      | Except.error e => Except.error e
      | Except.ok bs => Except.ok (b :: bs)

/-- `DataCollatorForCompletionOnlyLM.torch_call` on the parent batch:
rewrite the labels row by row, leave `input_ids` and `attention_mask`
untouched. -/
def torch_call (respId : Int) (parent : Batch) : Except String Batch :=
  match exceptMap (mask_example respId) parent.labels with
  | Except.error e => Except.error e
  | Except.ok ls => Except.ok { parent with labels := ls }

/-! Concrete batches used to evaluate the collator theorems. -/

/-- A parent batch whose single example contains the response-key id 5
at position 1. -/
def batchGood : Batch := ⟨[[10, 11, 12, 13]], [[1, 1, 1, 1]], [[7, 5, 9, 3]]⟩

/-- The batch `torch_call 5 batchGood` returns: labels masked through
position 1, everything else untouched. -/
def batchGoodOut : Batch :=
  ⟨[[10, 11, 12, 13]], [[1, 1, 1, 1]], [[-100, -100, 9, 3]]⟩

/-- A parent batch whose single example never contains the
response-key id 5. -/
def batchBad : Batch := ⟨[[10, 11]], [[1, 1]], [[1, 2]]⟩

/-! ## Tokenization and dataset preprocessing (src/src/model.py, lines 138-162)

The external tokenizer is a function from text to token ids plus an
attention mask; Hugging-Face `truncation=True` keeps the first
`max_length` tokens.  `remove_columns` leaves only the tokenizer output
columns, which is why `TokenizedRecord` carries nothing else.  The
external `dataset.shuffle()` is an abstract permutation. -/

/-- A record of the processed dataset: only the tokenizer output columns
survive `remove_columns=["instruction", "context", "response", "text"]`. -/
structure TokenizedRecord where
  input_ids : List Int
  attention_mask : List Int
deriving DecidableEq, Repr

/-- `preprocess_batch` (lines 139-144): tokenize the text with
truncation at `max_length`. -/
def preprocess_batch (tokenize : String → TokenizedRecord) (max_length : Nat)
    (text : String) : TokenizedRecord :=
  let t := tokenize text
  ⟨t.input_ids.take max_length, t.attention_mask.take max_length⟩

/-- `preprocess_dataset` (lines 147-162): add the prompt text, tokenize
with truncation, drop the text columns, filter out every record whose
token count reached `max_length`, then shuffle. -/
def preprocess_dataset (tokenize : String → TokenizedRecord)
    (max_length : Nat)
    (shuffle : List TokenizedRecord → List TokenizedRecord)
    (records : List TrainRecord) : List TokenizedRecord :=
  let dataset := load_training_dataset records
  let tokenized := dataset.map
    (fun r => preprocess_batch tokenize max_length (r.text.getD ""))
  let filtered := tokenized.filter
    (fun r => r.input_ids.length < max_length)
  shuffle filtered

/-! ## Model and tokenizer loading (src/src/model.py, lines 36-72)

`AutoTokenizer.from_pretrained` and `AutoModelForCausalLM.from_pretrained`
are external; they are abstract loader functions here.  Only the state
the repository touches is modelled. -/

/-- The slice of Hugging-Face tokenizer state the repository touches. -/
structure Tokenizer where
  vocab_size : Nat
  pad_token_is_eos : Bool
  additional_special_tokens : List String
deriving DecidableEq, Repr

/-- The slice of Hugging-Face model state the repository touches. -/
structure Model where
  use_cache : Bool
  embedding_rows : Nat
  max_position_embeddings : Option Nat
deriving DecidableEq, Repr

/-- `load_tokenizer` (lines 37-45): load, set the pad token to the eos
token, register the end, instruction and response-with-newline keys as
additional special tokens. -/
def load_tokenizer (from_pretrained : String → Tokenizer)
    (path : String) : Tokenizer :=
  let tokenizer := from_pretrained path
  { tokenizer with
    pad_token_is_eos := true,
    additional_special_tokens := tokenizer.additional_special_tokens ++
      [END_KEY, INSTRUCTION_KEY, RESPONSE_KEY_NL] }

/-- `load_model` (lines 48-56): load with `use_cache` disabled exactly
when gradient checkpointing is on. -/
def load_model (from_pretrained : String → Model) (path : String)
    (gradient_checkpointing : Bool) : Model :=
  { from_pretrained path with
    use_cache := if gradient_checkpointing then false else true }

/-- The Python exception raised when a name is looked up before the
enclosing scope has bound it. -/
inductive PyError
  | nameError : String → PyError
deriving DecidableEq, Repr

/-- The free variables of `get_model_tokenizer`: the locals `model` and
`tokenizer` of `fine_tune_model`, each `none` while still unbound. -/
structure EnclosingScope where
  model : Option Model
  tokenizer : Option Tokenizer

/-- `get_model_tokenizer` (lines 59-66): load the tokenizer, load the
model, then evaluate `model.resize_token_embeddings(len(tokenizer))` —
where `model` and `tokenizer` are the *enclosing-scope* names, not the
locals `pretrained_model` / `pretrained_tokenizer` — and return the
pretrained pair.  Python evaluates `model` first, so an unbound `model`
raises `NameError` before `tokenizer` is consulted. -/
def get_model_tokenizer (tok_from_pretrained : String → Tokenizer)
    (model_from_pretrained : String → Model) (scope : EnclosingScope)
    (path : String) (gradient_checkpointing : Bool) :
    Except PyError (Model × Tokenizer) :=
  let pretrained_tokenizer := load_tokenizer tok_from_pretrained path
  let pretrained_model :=
    load_model model_from_pretrained path gradient_checkpointing
  match scope.model with
  | none => Except.error (PyError.nameError "model")
  | some m =>
    match scope.tokenizer with
    | none => Except.error (PyError.nameError "tokenizer")
    | some t =>
      let _resized := { m with embedding_rows := t.vocab_size }
      Except.ok (pretrained_model, pretrained_tokenizer)

/-- What `fine_tune_model` would go on to do after line 72. -/
inductive FineTuneOutcome
  | trained
deriving DecidableEq, Repr

/-- `fine_tune_model` (lines 15-250) as a control flow: the parquet read
and JSON dump (lines 19-27) are pure and always succeed; then line 69
calls `get_model_tokenizer` to *produce* the locals `model` and
`tokenizer`, so during that call both names are still unbound in the
enclosing scope.  Everything after line 72 — preprocessing, trainer
construction, training, saving — is abstracted as `restOfTraining`. -/
def fine_tune_model (tok_from_pretrained : String → Tokenizer)
    (model_from_pretrained : String → Model)
    (restOfTraining : Model × Tokenizer → Except PyError FineTuneOutcome)
    (dataset_path model_name : String) : Except PyError FineTuneOutcome :=
  match get_model_tokenizer tok_from_pretrained model_from_pretrained
      ⟨none, none⟩ model_name true with
  | Except.error e => Except.error e
  | Except.ok mt => restOfTraining mt

/-! ## The kfp pipeline DSL (src/pipeline.py)

A kfp task records its component, arguments, display name, explicit
`after` dependencies and resource requests.  The component functions
(`process_data`, `fine_tune_model`, `upload_container`,
`serve_model_component`) live in a `components` package that is not part
of the two source files; a task argument is either a constant or another
task's output. -/

/-- A task argument: a plain value or a reference to another task's
output artifact. -/
inductive Arg
  | const : String → Arg
  | taskOutput : String → Arg
deriving DecidableEq, Repr

/-- One node of the kfp pipeline. -/
structure PipelineTask where
  component : String
  args : List Arg
  display_name : Option String
  after_tasks : List String
  cpu_request : Option String
  memory_limit : Option String
deriving DecidableEq, Repr

/-- Invoking a kfp component produces a task with no display name,
dependencies or resource requests yet. -/
def componentCall (component : String) (args : List Arg) : PipelineTask :=
  ⟨component, args, none, [], none, none⟩

def PipelineTask.set_display_name (t : PipelineTask) (n : String) :
    PipelineTask :=
  { t with display_name := some n }

def PipelineTask.after (t u : PipelineTask) : PipelineTask :=
  { t with after_tasks := t.after_tasks ++ [u.component] }

def PipelineTask.set_cpu_request (t : PipelineTask) (c : String) :
    PipelineTask :=
  { t with cpu_request := some c }

def PipelineTask.set_memory_limit (t : PipelineTask) (m : String) :
    PipelineTask :=
  { t with memory_limit := some m }

/-- `task.output`: a reference to the task's output artifact. -/
def PipelineTask.output (t : PipelineTask) : Arg := Arg.taskOutput t.component

/-- Modelled from the spec: the `constants` module imported by
src/pipeline.py is not under src; per the spec it supplies the fixed
string constants the pipeline DSL consumes, so they are abstract fields
here. -/
structure PipelineConstants where
  project_region : String
  serving_image : String
  model_display_name : String
  pipeline_description : String
  pipeline_name : String
  pipeline_root_gcs : String
  original_model_name : String
  trigger_id : String
  staging_bucket : String
  save_model_bucket_name : String
  dataset_bucket : String

/-- The `pipeline` function (src/pipeline.py lines 17-42), transcribed
task by task in source order. -/
def pipeline (c : PipelineConstants) (project_id job_id : String) :
    List PipelineTask :=
  let process_data_task :=
    (componentCall "process_data"
      [Arg.const c.dataset_bucket]).set_display_name "Data Processing"
  let train_model_task :=
    ((((componentCall "fine_tune_model"
          [process_data_task.output, Arg.const c.original_model_name,
            Arg.const c.save_model_bucket_name]).after
        process_data_task).set_display_name
        "Dolly Fine Tuning").set_cpu_request "8").set_memory_limit "64G"
  let upload_model_task :=
    ((componentCall "upload_container"
        [Arg.const project_id, Arg.const c.trigger_id]).after
      train_model_task).set_display_name "Model_Upload"
  let serve_model_task :=
    ((componentCall "serve_model_component"
        [Arg.const project_id, Arg.const c.project_region,
          Arg.const c.staging_bucket, Arg.const c.serving_image,
          Arg.const c.model_display_name]).after
      upload_model_task).set_display_name "Serve_Model"
  [process_data_task, train_model_task, upload_model_task, serve_model_task]

/-- The artifact `compiler.Compiler().compile` produces: the compiled
form of the pipeline function, written at `package_path` (the kfp
compiler itself is external; this is its documented contract). -/
structure CompiledPackage where
  package_path : String
  pipeline_func : PipelineConstants → String → String → List PipelineTask

/-- `compiler.Compiler().compile(pipeline_func, package_path)`. -/
def compilerCompile
    (pipeline_func : PipelineConstants → String → String → List PipelineTask)
    (package_path : String) : CompiledPackage :=
  ⟨package_path, pipeline_func⟩

/-- `compile_pipeline` (src/pipeline.py lines 45-50): compile the
pipeline function to the given template path and return `None`. -/
def compile_pipeline (pipeline_template_name : String) :
    CompiledPackage × Option Unit :=
  (compilerCompile pipeline pipeline_template_name, none)

/-- The default value of the `pipeline_template_name` parameter. -/
def default_pipeline_template_name : String := "./llm_pipeline.json"

/-! ## Training arguments and trainer construction
(src/src/model.py, lines 200-240) -/

/-- The `TrainingArguments` fields set at lines 207-231 (the learning
rate is the exact rational 1e-5). -/
structure TrainingArguments where
  output_dir : String
  per_device_train_batch_size : Nat
  per_device_eval_batch_size : Nat
  fp16 : Bool
  bf16 : Bool
  learning_rate : ℚ
  num_train_epochs : Nat
  deepspeed : Option String
  gradient_checkpointing : Bool
  logging_dir : String
  logging_strategy : String
  logging_steps : Nat
  evaluation_strategy : String
  eval_steps : Nat
  save_strategy : String
  save_steps : Nat
  save_total_limit : Nat
  load_best_model_at_end : Bool
  report_to : String
  disable_tqdm : Bool
  remove_unused_columns : Bool
  local_rank : Nat
  warmup_steps : Nat
deriving DecidableEq, Repr

def local_output_dir : String := "./model_dir/"

def epoch_count : Nat := 1

/-- The literal `TrainingArguments(...)` call at lines 207-231. -/
def training_args : TrainingArguments :=
  { output_dir := local_output_dir,
    per_device_train_batch_size := 4,
    per_device_eval_batch_size := 4,
    fp16 := false,
    bf16 := false,
    learning_rate := 1 / 100000,
    num_train_epochs := epoch_count,
    deepspeed := none,
    gradient_checkpointing := true,
    logging_dir := local_output_dir ++ "/runs",
    logging_strategy := "steps",
    logging_steps := 10,
    evaluation_strategy := "steps",
    eval_steps := 500,
    save_strategy := "steps",
    save_steps := 1000,
    save_total_limit := 10,
    load_best_model_at_end := false,
    report_to := "tensorboard",
    disable_tqdm := true,
    remove_unused_columns := false,
    local_rank := 2,
    warmup_steps := 0 }

/-- What the repository hands to the external `Trainer` (lines 234-240):
model, tokenizer, the arguments above, the processed dataset and the
completion-only collator.  No parallelism of its own. -/
structure TrainerSetup (M T D C : Type) where
  model : M
  tokenizer : T
  args : TrainingArguments
  train_dataset : D
  data_collator : C

/-- The `Trainer(...)` construction at lines 234-240. -/
def make_trainer {M T D C : Type} (m : M) (t : T) (d : D) (c : C) :
    TrainerSetup M T D C :=
  ⟨m, t, training_args, d, c⟩

/-! ## The training-data formatting step (src/src/model.py, lines 19-27) -/

/-- A pandas dataframe: named columns over row-major cells. -/
structure DataFrame (α : Type) where
  columns : List String
  rows : List (List α)

/-- `train_df.to_dict(orient="records")`: one name-to-value dictionary
per row. -/
def DataFrame.to_dict_records {α : Type} (df : DataFrame α) :
    List (List (String × α)) :=
  df.rows.map (fun r => df.columns.zip r)

/-- `training_prompts` (lines 19-20), which lines 25-27 dump verbatim as
JSON to `./train_data/train_queries.json`; `read_parquet` is the
external pandas reader. -/
def training_prompts {α : Type} (read_parquet : String → DataFrame α)
    (dataset_path : String) : List (List (String × α)) :=
  (read_parquet dataset_path).to_dict_records

/-- A concrete dataframe used to evaluate the round-trip theorem. -/
def dfW : DataFrame Nat := ⟨["a", "b"], [[1, 2], [3, 4]]⟩

end LlmPipeline

namespace LlmPipeline

/-! ## Helper lemmas about `exceptMap` and masking -/

theorem exceptMap_ok_length {f : α → Except ε β} {l : List α} {l' : List β}
    (h : exceptMap f l = Except.ok l') : l'.length = l.length := by
  induction l generalizing l' with
  | nil => simp [exceptMap] at h; simp [← h]
  | cons a as ih =>
    simp only [exceptMap] at h
    cases hfa : f a with
    | error e => rw [hfa] at h; exact absurd h (by simp)
    | ok b =>
      rw [hfa] at h
      cases has : exceptMap f as with
      | error e => rw [has] at h; exact absurd h (by simp)
      | ok bs =>
        rw [has] at h
        cases h
        simp [ih has]

theorem exceptMap_ok_getD {f : α → Except ε β} {l : List α} {l' : List β}
    (h : exceptMap f l = Except.ok l') (i : Nat) (hi : i < l.length)
    (da : α) (db : β) :
    f (l.getD i da) = Except.ok (l'.getD i db) := by
  induction l generalizing l' i with
  | nil => simp at hi
  | cons a as ih =>
    simp only [exceptMap] at h
    cases hfa : f a with
    | error e => rw [hfa] at h; exact absurd h (by simp)
    | ok b =>
      rw [hfa] at h
      cases has : exceptMap f as with
      | error e => rw [has] at h; exact absurd h (by simp)
      | ok bs =>
        rw [has] at h
        cases h
        cases i with
        | zero => simpa using hfa
        | succ n =>
          have hn : n < as.length := Nat.lt_of_succ_lt_succ hi
          simpa using ih has n hn

theorem exceptMap_error_iff {f : α → Except ε β} {l : List α} :
    (∃ e, exceptMap f l = Except.error e) ↔
      ∃ a ∈ l, ∃ e, f a = Except.error e := by
  induction l with
  | nil => simp [exceptMap]
  | cons a as ih =>
    simp only [exceptMap]
    cases hfa : f a with
    | error e => simp [hfa]
    | ok b =>
      cases has : exceptMap f as with
      | error e =>
        simp only [List.mem_cons]
        constructor
        · intro _
          rcases ih.mp ⟨e, has⟩ with ⟨x, hx, hex⟩
          exact ⟨x, Or.inr hx, hex⟩
        · intro _; exact ⟨e, rfl⟩
      | ok bs =>
        simp only [List.mem_cons]
        constructor
        · rintro ⟨e, he⟩; exact absurd he (by simp)
        · rintro ⟨x, hx | hx, e, hex⟩
          · subst hx; rw [hfa] at hex; exact absurd hex (by simp)
          · exact absurd (ih.mpr ⟨x, hx, e, hex⟩) (by simp [has])

theorem mask_labels_length (endIdx : Nat) (lbls : List Int) :
    (mask_labels endIdx lbls).length = lbls.length := by
  simp [mask_labels]

theorem mask_labels_getD (endIdx : Nat) (lbls : List Int) (j : Nat)
    (hj : j < lbls.length) :
    (mask_labels endIdx lbls).getD j 0 =
      if j < endIdx then -100 else lbls.getD j 0 := by
  induction lbls generalizing j endIdx with
  | nil => simp at hj
  | cons x xs ih =>
    simp only [mask_labels, List.mapIdx_cons]
    cases j with
    | zero => simp
    | succ n =>
      have hn : n < xs.length := Nat.lt_of_succ_lt_succ hj
      simp only [List.getD_cons_succ]
      cases endIdx with
      | zero =>
        have h0 := ih 0 n hn
        simp only [mask_labels] at h0
        simp only [Nat.not_lt_zero, if_false] at h0 ⊢
        exact h0
      | succ m =>
        have hm := ih m n hn
        simp only [mask_labels] at hm
        simp only [Nat.add_lt_add_iff_right]
        exact hm

theorem find_response_start_eq_none_iff (respId : Int) (lbls : List Int) :
    find_response_start respId lbls = none ↔ respId ∉ lbls := by
  induction lbls with
  | nil => simp [find_response_start]
  | cons x xs ih =>
    by_cases hx : x = respId
    · subst hx
      simp [find_response_start]
    · have hbe : (x == respId) = false := by
        simp [hx]
      simp only [find_response_start, hbe, Bool.false_eq_true, if_false,
        List.mem_cons]
      constructor
      · intro h
        have hnone : find_response_start respId xs = none := by
          cases hfs : find_response_start respId xs with
          | none => rfl
          | some n => rw [hfs] at h; exact absurd h (by simp)
        intro hmem
        rcases hmem with hmem | hmem
        · exact hx hmem.symm
        · exact (ih.mp hnone) hmem
      · intro h
        have : respId ∉ xs := fun hm => h (Or.inr hm)
        rw [ih.mpr this]
        rfl

theorem find_response_start_spec (respId : Int) (lbls : List Int) (k : Nat)
    (h : find_response_start respId lbls = some k) :
    k < lbls.length ∧ lbls.getD k 0 = respId ∧
      ∀ j, j < k → lbls.getD j 0 ≠ respId := by
  induction lbls generalizing k with
  | nil => simp [find_response_start] at h
  | cons x xs ih =>
    by_cases hx : x = respId
    · subst hx
      simp [find_response_start] at h
      subst h
      exact ⟨Nat.succ_pos _, rfl, fun j hj => absurd hj (Nat.not_lt_zero j)⟩
    · have hbe : (x == respId) = false := by
        simp [hx]
      simp only [find_response_start, hbe, Bool.false_eq_true, if_false] at h
      cases hfs : find_response_start respId xs with
      | none => rw [hfs] at h; exact absurd h (by simp)
      | some n =>
        rw [hfs] at h
        simp only [Option.map_some'] at h
        rcases ih n hfs with ⟨hlt, hget, hfirst⟩
        have hk : n + 1 = k := Option.some.inj h
        subst hk
        refine ⟨Nat.succ_lt_succ hlt, by simpa using hget, ?_⟩
        intro j hj
        cases j with
        | zero => simpa using hx
        | succ m => simpa using hfirst m (Nat.lt_of_succ_lt_succ hj)

/-- C4: truthy context selects the with-input template, otherwise the
no-input template. -/
theorem add_text_spec (rec : TrainRecord) :
    (∀ c, rec.context = some c → c ≠ "" →
      (add_text rec).text =
        some (PROMPT_WITH_INPUT_FORMAT rec.instruction c rec.response)) ∧
    ((rec.context = none ∨ rec.context = some "") →
      (add_text rec).text =
        some (PROMPT_NO_INPUT_FORMAT rec.instruction rec.response)) := by
  constructor
  · intro c hc hne
    have hce : c.isEmpty = false := by
      cases h : c.isEmpty
      · rfl
      · exact absurd ((String.isEmpty_iff c).mp h) hne
    have htr : contextTruthy (some c) = true := by
      simp [contextTruthy, hce]
    simp [add_text, hc, htr]
  · intro h
    have hfa : contextTruthy rec.context = false := by
      rcases h with h | h <;> rw [h] <;> rfl
    simp only [add_text, hfa, Bool.false_eq_true, if_false]

theorem add_text_spec_witness :
    (add_text ⟨"inst", some "ctx", "resp", none⟩).text =
      some (PROMPT_WITH_INPUT_FORMAT "inst" "ctx" "resp") ∧
    (add_text ⟨"inst", none, "resp", none⟩).text =
      some (PROMPT_NO_INPUT_FORMAT "inst" "resp") :=
  ⟨(add_text_spec ⟨"inst", some "ctx", "resp", none⟩).1 "ctx" rfl (by decide),
   (add_text_spec ⟨"inst", none, "resp", none⟩).2 (Or.inl rfl)⟩

/-- C1: on every batch `torch_call` returns, each example's labels are
`-100` from position 0 up through the position `k` of the (single-token)
response key — `k` being the first occurrence of the response-key id —
and every later label equals the parent collator's label. -/
theorem torch_call_completion_only_mask (respId : Int) (parent out : Batch)
    (h : torch_call respId parent = Except.ok out) (i : Nat)
    (hi : i < parent.labels.length) :
    ∃ k, find_response_start respId (parent.labels.getD i []) = some k ∧
      (parent.labels.getD i []).getD k 0 = respId ∧
      (∀ j, j < k → (parent.labels.getD i []).getD j 0 ≠ respId) ∧
      out.labels.length = parent.labels.length ∧
      (out.labels.getD i []).length = (parent.labels.getD i []).length ∧
      ∀ j, j < (parent.labels.getD i []).length →
        (out.labels.getD i []).getD j 0 =
          if j ≤ k then -100 else (parent.labels.getD i []).getD j 0 := by
  revert h
  unfold torch_call
  cases hmm : exceptMap (mask_example respId) parent.labels with
  | error e => intro h; exact absurd h (by simp)
  | ok ls =>
    intro h
    have hout : out = { parent with labels := ls } := by
      cases h; rfl
    have hrow := exceptMap_ok_getD hmm i hi [] []
    revert hrow
    unfold mask_example
    cases hfind : find_response_start respId (parent.labels.getD i []) with
    | none => intro hrow; exact absurd hrow (by simp)
    | some s =>
      intro hrow
      have hls : ls.getD i [] = mask_labels (s + 1) (parent.labels.getD i []) :=
        (Except.ok.inj hrow).symm
      rcases find_response_start_spec respId (parent.labels.getD i []) s hfind
        with ⟨-, hgk, hfirst⟩
      have hol : out.labels = ls := by rw [hout]
      refine ⟨s, rfl, hgk, hfirst, ?_, ?_, ?_⟩
      · rw [hol]
        exact exceptMap_ok_length hmm
      · rw [hol, hls, mask_labels_length]
      · intro j hj
        rw [hol, hls, mask_labels_getD (s + 1) _ j hj]
        simp [Nat.lt_succ_iff]

theorem torch_call_completion_only_mask_witness :
    ∃ k, find_response_start 5 (batchGood.labels.getD 0 []) = some k ∧
      (batchGood.labels.getD 0 []).getD k 0 = 5 ∧
      (∀ j, j < k → (batchGood.labels.getD 0 []).getD j 0 ≠ 5) ∧
      batchGoodOut.labels.length = batchGood.labels.length ∧
      (batchGoodOut.labels.getD 0 []).length =
        (batchGood.labels.getD 0 []).length ∧
      ∀ j, j < (batchGood.labels.getD 0 []).length →
        (batchGoodOut.labels.getD 0 []).getD j 0 =
          if j ≤ k then -100 else (batchGood.labels.getD 0 []).getD j 0 :=
  torch_call_completion_only_mask 5 batchGood batchGoodOut (by rfl) 0
    (by decide)

/-- C6: `torch_call` fails (the `RuntimeError`) exactly when some
example's labels never contain the response-key id; on success the
returned batch agrees with the parent batch outside the labels field. -/
theorem torch_call_error_characterisation (respId : Int) (parent : Batch) :
    ((∃ e, torch_call respId parent = Except.error e) ↔
      ∃ lbls ∈ parent.labels, respId ∉ lbls) ∧
    ∀ out, torch_call respId parent = Except.ok out →
      out.input_ids = parent.input_ids ∧
      out.attention_mask = parent.attention_mask := by
  have hme : ∀ lbls : List Int,
      (∃ e, mask_example respId lbls = Except.error e) ↔
        respId ∉ lbls := by
    intro lbls
    rw [← find_response_start_eq_none_iff respId lbls]
    unfold mask_example
    cases hfs : find_response_start respId lbls with
    | none => simp
    | some s => simp
  constructor
  · constructor
    · rintro ⟨e, he⟩
      revert he
      unfold torch_call
      cases hmm : exceptMap (mask_example respId) parent.labels with
      | error e' =>
        intro _
        rcases exceptMap_error_iff.mp ⟨e', hmm⟩ with ⟨lbls, hmem, hex⟩
        exact ⟨lbls, hmem, (hme lbls).mp hex⟩
      | ok ls => intro he; exact absurd he (by simp)
    · rintro ⟨lbls, hmem, hni⟩
      rcases exceptMap_error_iff.mpr ⟨lbls, hmem, (hme lbls).mpr hni⟩
        with ⟨e, he⟩
      refine ⟨e, ?_⟩
      unfold torch_call
      rw [he]
  · intro out hout
    revert hout
    unfold torch_call
    cases hmm : exceptMap (mask_example respId) parent.labels with
    | error e => intro hout; exact absurd hout (by simp)
    | ok ls =>
      intro hout
      cases hout
      exact ⟨rfl, rfl⟩

theorem torch_call_error_characterisation_witness :
    (∃ e, torch_call 5 batchBad = Except.error e) ∧
    batchGoodOut.input_ids = batchGood.input_ids ∧
    batchGoodOut.attention_mask = batchGood.attention_mask :=
  ⟨(torch_call_error_characterisation 5 batchBad).1.mpr
      ⟨[1, 2], by decide, by decide⟩,
    (torch_call_error_characterisation 5 batchGood).2 batchGoodOut (by rfl)⟩

/-- C5: when the external shuffle is a permutation, every record of the
preprocessed dataset has strictly fewer than `max_length` token ids:
truncation-at-`max_length` records are filtered out before the shuffle. -/
theorem preprocess_dataset_short_records
    (tokenize : String → TokenizedRecord) (max_length : Nat)
    (shuffle : List TokenizedRecord → List TokenizedRecord)
    (records : List TrainRecord)
    (hshuffle : ∀ l, List.Perm (shuffle l) l)
    (r : TokenizedRecord)
    (hr : r ∈ preprocess_dataset tokenize max_length shuffle records) :
    r.input_ids.length < max_length := by
  unfold preprocess_dataset at hr
  have hmem := (hshuffle _).mem_iff.mp hr
  have := List.of_mem_filter hmem
  simpa using this

theorem preprocess_dataset_short_records_witness :
    (⟨[3, 5, 9], [1, 1, 1]⟩ : TokenizedRecord).input_ids.length < 4 :=
  preprocess_dataset_short_records
    (fun _ => ⟨[3, 5, 9], [1, 1, 1]⟩) 4 List.reverse
    [⟨"i", none, "r", none⟩] (fun l => l.reverse_perm)
    ⟨[3, 5, 9], [1, 1, 1]⟩ (by decide)

/-- C3: whatever the loaders and the rest of the training would do, the
call to `get_model_tokenizer` at line 69 runs with the enclosing names
`model` and `tokenizer` still unbound, so `fine_tune_model` always
stops with `NameError` on `model` and never reaches training. -/
theorem fine_tune_model_name_error
    (tok_from_pretrained : String → Tokenizer)
    (model_from_pretrained : String → Model)
    (restOfTraining : Model × Tokenizer → Except PyError FineTuneOutcome)
    (dataset_path model_name : String) :
    fine_tune_model tok_from_pretrained model_from_pretrained
        restOfTraining dataset_path model_name =
      Except.error (PyError.nameError "model") := rfl

/-- C2: the pipeline declares exactly the four stages, in a linear DAG:
fine-tuning is after data processing and consumes its output, upload is
after fine-tuning, serving is after upload. -/
theorem pipeline_four_stage_linear_dag (c : PipelineConstants)
    (project_id job_id : String) :
    ∃ t0 t1 t2 t3,
      pipeline c project_id job_id = [t0, t1, t2, t3] ∧
      t0.component = "process_data" ∧
      t0.display_name = some "Data Processing" ∧
      t1.component = "fine_tune_model" ∧
      t1.display_name = some "Dolly Fine Tuning" ∧
      t2.component = "upload_container" ∧
      t2.display_name = some "Model_Upload" ∧
      t3.component = "serve_model_component" ∧
      t3.display_name = some "Serve_Model" ∧
      t1.after_tasks = [t0.component] ∧
      t0.output ∈ t1.args ∧
      t2.after_tasks = [t1.component] ∧
      t3.after_tasks = [t2.component] :=
  ⟨_, _, _, _, rfl, rfl, rfl, rfl, rfl, rfl, rfl, rfl, rfl, rfl,
    List.mem_cons_self _ _, rfl, rfl⟩

/-- C7: the fine-tuning task is the only one with resource requests —
8 CPUs and a 64G memory limit. -/
theorem pipeline_resource_requests (c : PipelineConstants)
    (project_id job_id : String) :
    ∃ t0 t1 t2 t3,
      pipeline c project_id job_id = [t0, t1, t2, t3] ∧
      t1.cpu_request = some "8" ∧
      t1.memory_limit = some "64G" ∧
      t0.cpu_request = none ∧ t0.memory_limit = none ∧
      t2.cpu_request = none ∧ t2.memory_limit = none ∧
      t3.cpu_request = none ∧ t3.memory_limit = none :=
  ⟨_, _, _, _, rfl, rfl, rfl, rfl, rfl, rfl, rfl, rfl, rfl⟩

/-- C8: `compile_pipeline` compiles the `pipeline` function into a
package at the given path — `"./llm_pipeline.json"` by default — and
returns `None`. -/
theorem compile_pipeline_spec (pipeline_template_name : String) :
    (compile_pipeline pipeline_template_name).1.package_path =
      pipeline_template_name ∧
    (compile_pipeline pipeline_template_name).1.pipeline_func = pipeline ∧
    (compile_pipeline pipeline_template_name).2 = none ∧
    default_pipeline_template_name = "./llm_pipeline.json" :=
  ⟨rfl, rfl, rfl, rfl⟩

/-- C9: the fine-tuning stage only configures concurrency: gradient
checkpointing on, `use_cache` off exactly when checkpointing is on,
per-device train and eval batch sizes 4, all handed to the external
trainer. -/
theorem training_concurrency_is_configuration {M T D C : Type}
    (m : M) (t : T) (d : D) (cl : C)
    (model_from_pretrained : String → Model) (path : String) (gc : Bool) :
    training_args.gradient_checkpointing = true ∧
    training_args.per_device_train_batch_size = 4 ∧
    training_args.per_device_eval_batch_size = 4 ∧
    ((load_model model_from_pretrained path gc).use_cache = false ↔
      gc = true) ∧
    (make_trainer m t d cl).args = training_args := by
  refine ⟨rfl, rfl, rfl, ?_, rfl⟩
  cases gc <;> simp [load_model]

/-- C10: the list dumped to `./train_data/train_queries.json` is exactly
the dataframe's rows as per-row dictionaries — same count, each entry
the column-to-value pairing of the corresponding row, and (for a
well-formed dataframe) the rows are recoverable unchanged. -/
theorem training_prompts_round_trip {α : Type}
    (read_parquet : String → DataFrame α) (dataset_path : String)
    (hw : ∀ r ∈ (read_parquet dataset_path).rows,
      r.length = (read_parquet dataset_path).columns.length) :
    (training_prompts read_parquet dataset_path).length =
      (read_parquet dataset_path).rows.length ∧
    (∀ i, i < (read_parquet dataset_path).rows.length →
      (training_prompts read_parquet dataset_path).getD i [] =
        (read_parquet dataset_path).columns.zip
          ((read_parquet dataset_path).rows.getD i [])) ∧
    (training_prompts read_parquet dataset_path).map (List.map Prod.snd) =
      (read_parquet dataset_path).rows := by
  refine ⟨?_, ?_, ?_⟩
  · simp [training_prompts, DataFrame.to_dict_records]
  · intro i hi
    have hsome : (read_parquet dataset_path).rows[i]? =
        some ((read_parquet dataset_path).rows.get ⟨i, hi⟩) :=
      List.getElem?_eq_getElem hi
    simp [training_prompts, DataFrame.to_dict_records, List.getD,
      List.getElem?_map, hsome]
  · rw [training_prompts, DataFrame.to_dict_records, List.map_map]
    have : ∀ r ∈ (read_parquet dataset_path).rows,
        (List.map Prod.snd ∘ fun r =>
          (read_parquet dataset_path).columns.zip r) r = id r := by
      intro r hr
      simpa using
        List.map_snd_zip (read_parquet dataset_path).columns r
          (le_of_eq (hw r hr))
    rw [List.map_congr_left this, List.map_id]

theorem training_prompts_round_trip_witness :
    (training_prompts (fun _ => dfW) "ds").map (List.map Prod.snd) =
      dfW.rows :=
  (training_prompts_round_trip (fun _ => dfW) "ds" (by decide)).2.2

end LlmPipeline
